import Mathlib

/-!
# java-class-version (`jvc.go`)

A shallow embedding of the single source file `jvc.go` and the properties of
its header reader, its version table, its jar scan and its command line.

Modelling conventions

* `uint16` and `uint32` values are natural numbers; the decoders below only
  ever build values below `2^16` and `2^32`.
* An `io.Reader` is the list of bytes it yields before end of file or an
  I/O error.  `io.ReadFull` returns an error exactly when fewer bytes than
  asked for can be obtained, whatever the reason, so the list is all the
  header reader can observe.
* A Go `string` is a Lean `String`; the two suffixes tested by the program
  are ASCII, so the byte-wise comparison of `strings.HasSuffix` and the
  character-wise comparison used here agree on UTF-8 text.
* A Go `error` built with `errors.New msg` is `some msg`; `nil` is `none`.
* The file system is a pair of functions giving the outcome of `os.Open`
  and of `zip.OpenReader`; every open, header read and close is recorded in
  a trace of events.
* `os.Args` is `prog :: args`: the program name followed by the positional
  arguments.
-/

namespace JVC

/-! ## Data model -/

/-- One octet. -/
abbrev Byte := Fin 256

/-- An `io.Reader`: the bytes still to be delivered. -/
abbrev Reader := List Byte

/-- The struct `JavaClass` of `jvc.go`. -/
structure JavaClass where
  Magic : Nat
  Minor : Nat
  Major : Nat
deriving DecidableEq

/-- The zero value `var jc JavaClass`. -/
def JavaClass.zero : JavaClass := ⟨0, 0, 0⟩

/-- The four results `(string, uint16, uint16, error)` of the readers. -/
structure Result where
  ver : String
  major : Nat
  minor : Nat
  err : Option String
deriving DecidableEq

/-- Decoder `binary.BigEndian.Uint16`. -/
def bigEndianUint16 (b0 b1 : Byte) : Nat :=
  b0.val * 2 ^ 8 + b1.val

/-- Decoder `binary.BigEndian.Uint32`. -/
def bigEndianUint32 (b0 b1 b2 b3 : Byte) : Nat :=
  b0.val * 2 ^ 24 + b1.val * 2 ^ 16 + b2.val * 2 ^ 8 + b3.val

/-- The call `binary.Read(r, binary.BigEndian, &jc)`: `io.ReadFull` asks for the
8 bytes of the struct; when they arrive the three fields are decoded in
declaration order (`Magic`, `Minor`, `Major`), otherwise the call returns an
error, `jc` is left as it was and whatever was available has been consumed.
The results are the struct, whether an error was returned, and the reader
after the call. -/
def binaryRead (r : Reader) (jc : JavaClass) : JavaClass × Bool × Reader :=
  match r with
  | m0 :: m1 :: m2 :: m3 :: n0 :: n1 :: j0 :: j1 :: rest =>
      (⟨bigEndianUint32 m0 m1 m2 m3, bigEndianUint16 n0 n1, bigEndianUint16 j0 j1⟩,
        false, rest)
  | _ => (jc, true, [])

/-- Function `determineJavaVersion` of `jvc.go`. -/
def determineJavaVersion (major minor : Nat) : String :=
  if major = 45 ∧ minor = 3 then "1.1"
  else if major = 46 ∧ minor = 0 then "1.2"
  else if major = 47 ∧ minor = 0 then "1.3"
  else if major = 48 ∧ minor = 0 then "1.4"
  else if major = 49 ∧ minor = 0 then "1.5"
  else if major = 50 ∧ minor = 0 then "1.6"
  else if major = 51 ∧ minor = 0 then "1.7"
  else "1.8"

/-- Function `read` of `jvc.go`.  The error of `binary.Read` is dropped, as in
the source; the second component is the reader after the call. -/
def read (r : Reader) (classFile : String) : Result × Reader :=
  let d := binaryRead r JavaClass.zero
  let jc := d.1
  if jc.Magic ≠ 0xcafebabe then
    (⟨"", 0, 0, some ("Invalid class file: " ++ classFile)⟩, d.2.2)
  else
    (⟨determineJavaVersion jc.Major jc.Minor, jc.Major, jc.Minor, none⟩, d.2.2)

/-- Function `strings.HasSuffix`:
`len(s) >= len(suffix) && s[len(s)-len(suffix):] == suffix`. -/
def HasSuffix (s suffix : String) : Bool :=
  decide (s.data.length ≥ suffix.data.length) &&
    decide (s.data.drop (s.data.length - suffix.data.length) = suffix.data)

/-! ## Files, archives and the trace of file operations -/

/-- What a handle refers to: a plain file (`os.Open`), a zip container
(`zip.OpenReader`) or the stream of the entry at a position of `r.File`
(`f.Open`). -/
inductive Handle where
  | file (path : String)
  | zip (path : String)
  | entry (index : Nat) (name : String)
deriving DecidableEq

/-- One file operation. -/
inductive Event where
  | opened (h : Handle)
  | openFailed (h : Handle)
  | headerRead (h : Handle) (consumed : Nat)
  | closed (h : Handle)
deriving DecidableEq

/-- An element of `r.File`: its `Name` and the outcome of `f.Open()`
(`none` when it returns an error). -/
structure ZipFile where
  Name : String
  Open : Option Reader

/-- The outcome of `os.Open` and of `zip.OpenReader` at every path
(`none` when the call returns an error). -/
structure FileSystem where
  osOpen : String → Option Reader
  zipOpenReader : String → Option (List ZipFile)

/-- The loop `for _, f := range r.File` of `ReadJarFile` from position `i` on,
together with the `return` after it.  The deferred `rc.Close()` runs when the
function returns, after `read`. -/
def scanEntries (jarFile : String) (i : Nat) : List ZipFile → Result × List Event
  | [] => (⟨"", 0, 0, some ("Unable to find a class file in " ++ jarFile)⟩, [])
  | f :: fs =>
      if HasSuffix f.Name ".class" then
        match f.Open with
        | none =>
            ((scanEntries jarFile (i + 1) fs).1,
              Event.openFailed (Handle.entry i f.Name) :: (scanEntries jarFile (i + 1) fs).2)
        | some rc =>
            ((read rc f.Name).1,
              [Event.opened (Handle.entry i f.Name),
               Event.headerRead (Handle.entry i f.Name) (rc.length - (read rc f.Name).2.length),
               Event.closed (Handle.entry i f.Name)])
      else scanEntries jarFile (i + 1) fs

/-- Function `ReadJarFile` of `jvc.go`.  The deferred `r.Close()` runs last. -/
def ReadJarFile (fs : FileSystem) (jarFile : String) : Result × List Event :=
  match fs.zipOpenReader jarFile with
  | none =>
      (⟨"", 0, 0, some ("Unable to read " ++ jarFile)⟩,
        [Event.openFailed (Handle.zip jarFile)])
  | some files =>
      ((scanEntries jarFile 0 files).1,
        Event.opened (Handle.zip jarFile) :: (scanEntries jarFile 0 files).2 ++
          [Event.closed (Handle.zip jarFile)])

/-- Function `ReadClassFile` of `jvc.go`. -/
def ReadClassFile (fs : FileSystem) (classFile : String) : Result × List Event :=
  match fs.osOpen classFile with
  | none =>
      (⟨"", 0, 0, some ("Unable to read " ++ classFile)⟩,
        [Event.openFailed (Handle.file classFile)])
  | some r =>
      ((read r classFile).1,
        [Event.opened (Handle.file classFile),
         Event.headerRead (Handle.file classFile) (r.length - (read r classFile).2.length),
         Event.closed (Handle.file classFile)])

/-! ## Command line -/

/-- What `fmt.Println` writes for string and error operands: the operands
separated by single spaces, then a newline. -/
def Sprintln : List String → String
  | [] => "\n"
  | [a] => a ++ "\n"
  | a :: b :: rest => a ++ " " ++ Sprintln (b :: rest)

/-- The verb `%d` of `fmt.Printf` at an unsigned operand. -/
def fmtD (n : Nat) : String := toString n

/-- A finished run: the writes made to standard output and to standard error,
one per call of a print function and in order, the exit status, and the trace
of file operations. -/
structure Process where
  stdout : List String
  stderr : List String
  exit : Nat
  trace : List Event
deriving DecidableEq

/-- Function `printUsage` of `jvc.go`: the text it writes to standard output. -/
def printUsage (prog : String) : String :=
  Sprintln ["Usage:", prog, "<class_file|jar_file>"]

/-- Function `validateArgs` of `jvc.go`, with `os.Args = prog :: args`: `some t`
when it wrote the usage text `t` and called `os.Exit(1)`, `none` when it
returned. -/
def validateArgs (prog : String) (args : List String) : Option String :=
  if (prog :: args).length ≠ 2 then some (printUsage prog) else none

/-- Function `main` of `jvc.go`, with `os.Args = prog :: args`.  Every print of
the source goes through `fmt.Println` or `fmt.Printf`, which write to standard
output; returning from `main` is exit status 0. -/
def main (fs : FileSystem) (prog : String) (args : List String) : Process :=
  match validateArgs prog args with
  | some usage => ⟨[usage], [], 1, []⟩
  | none =>
      let path := (prog :: args).getD 1 ""
      if HasSuffix path ".class" then
        let r := ReadClassFile fs path
        match r.1.err with
        | some e => ⟨[Sprintln ["Error:", e]], [], 1, r.2⟩
        | none =>
            ⟨["Class version : " ++ fmtD r.1.major ++ "." ++ fmtD r.1.minor ++ "\n",
              "Java version  : " ++ r.1.ver ++ "\n"], [], 0, r.2⟩
      else if HasSuffix path ".jar" then
        let r := ReadJarFile fs path
        match r.1.err with
        | some e => ⟨[Sprintln ["Error:", e]], [], 1, r.2⟩
        | none =>
            ⟨["Class version : " ++ fmtD r.1.major ++ "." ++ fmtD r.1.minor ++ "\n",
              "Java version  : " ++ r.1.ver ++ "\n"], [], 0, r.2⟩
      else
        ⟨[Sprintln ["Error: Only .class or .jar file is supported"]], [], 1, []⟩

/-! ## Concrete inputs used to exercise the theorems -/

/-- The seven pairs `(major, minor)` that `determineJavaVersion` tests for. -/
def tabledPairs : List (Nat × Nat) :=
  [(45, 3), (46, 0), (47, 0), (48, 0), (49, 0), (50, 0), (51, 0)]

/-- A jar entry that is not a class file. -/
def manifestEntry : ZipFile := ⟨"META-INF/MANIFEST.MF", some []⟩

/-- A class entry with a valid header: minor 0, major 52. -/
def fooEntry : ZipFile := ⟨"com/Foo.class", some [0xCA, 0xFE, 0xBA, 0xBE, 0, 0, 0, 52]⟩

/-- A class entry whose first four bytes are `DE AD BE EF`. -/
def badEntry : ZipFile := ⟨"com/Bad.class", some [0xDE, 0xAD, 0xBE, 0xEF, 0, 0, 0, 52]⟩

/-- A class entry that fails to open. -/
def lockedEntry : ZipFile := ⟨"com/Locked.class", none⟩

/-- A small file system: one valid class file, one truncated class file and
six jars; every other path fails to open. -/
def exampleFS : FileSystem where
  osOpen := fun p =>
    if p = "Foo.class" then some [0xCA, 0xFE, 0xBA, 0xBE, 0, 0, 0, 0x31]
    else if p = "short.class" then some [0xCA, 0xFE, 0xBA, 0xBE, 0, 0]
    else none
  zipOpenReader := fun p =>
    if p = "app.jar" then some [manifestEntry, fooEntry]
    else if p = "bad.jar" then some [badEntry, fooEntry]
    else if p = "empty.jar" then some []
    else if p = "docs.jar" then some [manifestEntry]
    else if p = "locked.jar" then some [lockedEntry, manifestEntry, fooEntry]
    else if p = "sealed.jar" then some [manifestEntry, lockedEntry]
    else none

/-- The handles that are open after a trace that starts with the handles `hs`
open: `opened h` adds `h`, `closed h` removes it, the other events change
nothing. -/
def stillOpen : List Handle → List Event → List Handle
  | hs, [] => hs
  | hs, Event.opened h :: es => stillOpen (h :: hs) es
  | hs, Event.closed h :: es => stillOpen (hs.erase h) es
  | hs, Event.openFailed _ :: es => stillOpen hs es
  | hs, Event.headerRead _ _ :: es => stillOpen hs es

/-- The relation between the error and the other three results of a reader: with
an error the label is empty and both numbers are 0; without one the label is
not empty and is `determineJavaVersion` of the two numbers. -/
def Result.Consistent (r : Result) : Prop :=
  (r.err ≠ none → r.ver = "" ∧ r.major = 0 ∧ r.minor = 0) ∧
    (r.err = none → r.ver ≠ "" ∧ r.ver = determineJavaVersion r.major r.minor)

/-! ## The version table -/

/-- C1: `determineJavaVersion` returns the tabled label at each of the seven
listed pairs: (45,3) is "1.1", (46,0) is "1.2", (47,0) is "1.3", (48,0) is
"1.4", (49,0) is "1.5", (50,0) is "1.6" and (51,0) is "1.7". -/
theorem determineJavaVersion_table :
    determineJavaVersion 45 3 = "1.1" ∧ determineJavaVersion 46 0 = "1.2" ∧
    determineJavaVersion 47 0 = "1.3" ∧ determineJavaVersion 48 0 = "1.4" ∧
    determineJavaVersion 49 0 = "1.5" ∧ determineJavaVersion 50 0 = "1.6" ∧
    determineJavaVersion 51 0 = "1.7" := by
  refine ⟨?_, ?_, ?_, ?_, ?_, ?_, ?_⟩ <;> rfl

/-- C2: at every pair `(major, minor)` that is not one of the seven tabled
pairs `determineJavaVersion` returns "1.8".  The pair ranges over all natural
numbers, hence over all pairs of unsigned 16-bit values. -/
theorem determineJavaVersion_default (major minor : Nat)
    (h : (major, minor) ∉ tabledPairs) : determineJavaVersion major minor = "1.8" := by
  simp only [tabledPairs, List.mem_cons, Prod.mk.injEq, List.mem_nil_iff, or_false, not_or] at h
  obtain ⟨h1, h2, h3, h4, h5, h6, h7⟩ := h
  simp only [determineJavaVersion, if_neg h1, if_neg h2, if_neg h3, if_neg h4, if_neg h5,
    if_neg h6, if_neg h7]

/-- The default label at (52,0) and (200,5), below the table at (44,3), above
every 16-bit major at (65535,65535), and at the tabled majors 45 and 49 with
another minor. -/
theorem determineJavaVersion_default_witness :
    determineJavaVersion 52 0 = "1.8" ∧ determineJavaVersion 200 5 = "1.8" ∧
    determineJavaVersion 44 3 = "1.8" ∧ determineJavaVersion 65535 65535 = "1.8" ∧
    determineJavaVersion 45 0 = "1.8" ∧ determineJavaVersion 49 1 = "1.8" :=
  ⟨determineJavaVersion_default 52 0 (by decide),
   determineJavaVersion_default 200 5 (by decide),
   determineJavaVersion_default 44 3 (by decide),
   determineJavaVersion_default 65535 65535 (by decide),
   determineJavaVersion_default 45 0 (by decide),
   determineJavaVersion_default 49 1 (by decide)⟩

/-! ## The header reader -/

/-- A reader with at least 8 bytes is 8 bytes followed by the rest. -/
theorem exists_header_of_length (b : Reader) (h : 8 ≤ b.length) :
    ∃ m0 m1 m2 m3 n0 n1 j0 j1 rest,
      b = m0 :: m1 :: m2 :: m3 :: n0 :: n1 :: j0 :: j1 :: rest := by
  match b, h with
  | m0 :: m1 :: m2 :: m3 :: n0 :: n1 :: j0 :: j1 :: rest, _ =>
      exact ⟨m0, m1, m2, m3, n0, n1, j0, j1, rest, rfl⟩

/-- On fewer than 8 bytes `binary.Read` reports an error, leaves the struct
alone and drains the reader. -/
theorem binaryRead_short (b : Reader) (jc : JavaClass) (h : b.length < 8) :
    binaryRead b jc = (jc, true, []) := by
  unfold binaryRead
  split
  · simp at h; omega
  · rfl

/-- The two outcomes of `read` on a reader that holds 8 bytes or more. -/
theorem read_cons8 (m0 m1 m2 m3 n0 n1 j0 j1 : Byte) (rest : Reader) (n : String) :
    read (m0 :: m1 :: m2 :: m3 :: n0 :: n1 :: j0 :: j1 :: rest) n =
      if bigEndianUint32 m0 m1 m2 m3 ≠ 0xcafebabe then
        (⟨"", 0, 0, some ("Invalid class file: " ++ n)⟩, rest)
      else
        (⟨determineJavaVersion (bigEndianUint16 j0 j1) (bigEndianUint16 n0 n1),
          bigEndianUint16 j0 j1, bigEndianUint16 n0 n1, none⟩, rest) := rfl

/-- The outcome of `read` on a reader that holds fewer than 8 bytes. -/
theorem read_short (b : Reader) (n : String) (h : b.length < 8) :
    read b n = (⟨"", 0, 0, some ("Invalid class file: " ++ n)⟩, []) := by
  unfold read
  rw [binaryRead_short b JavaClass.zero h]
  rfl

/-- The 16-bit decoder in the form `256 * high + low`. -/
theorem bigEndianUint16_eq (x y : Byte) : bigEndianUint16 x y = 256 * x.val + y.val := by
  unfold bigEndianUint16; omega

/-- C3: on every byte stream `b` of at least 8 bytes that starts with
`CA FE BA BE`, `read` succeeds (no error) and returns minor `256*b[4] + b[5]`,
major `256*b[6] + b[7]` and the label `determineJavaVersion major minor`. -/
theorem read_valid_header (b : Reader) (n : String) (h8 : 8 ≤ b.length)
    (hm : b.take 4 = [0xCA, 0xFE, 0xBA, 0xBE]) :
    (read b n).1 =
      ⟨determineJavaVersion (256 * b[6].val + b[7].val) (256 * b[4].val + b[5].val),
        256 * b[6].val + b[7].val, 256 * b[4].val + b[5].val, none⟩ := by
  obtain ⟨m0, m1, m2, m3, n0, n1, j0, j1, rest, rfl⟩ := exists_header_of_length b h8
  simp only [List.take_succ_cons, List.take_zero, List.cons.injEq, and_true] at hm
  obtain ⟨rfl, rfl, rfl, rfl⟩ := hm
  have hmagic : bigEndianUint32 0xCA 0xFE 0xBA 0xBE = 0xcafebabe := by decide
  rw [read_cons8, if_neg (not_not.mpr hmagic)]
  simp [bigEndianUint16_eq]

/-- The header `CA FE BA BE 00 00 00 31` gives label "1.5", major 49 and
minor 0, also when more bytes follow. -/
theorem read_valid_header_witness :
    (read [0xCA, 0xFE, 0xBA, 0xBE, 0, 0, 0, 0x31] "Foo.class").1 = ⟨"1.5", 49, 0, none⟩ ∧
      (read [0xCA, 0xFE, 0xBA, 0xBE, 0, 3, 0, 45, 7, 7] "Foo.class").1 =
        ⟨"1.1", 45, 3, none⟩ :=
  ⟨read_valid_header [0xCA, 0xFE, 0xBA, 0xBE, 0, 0, 0, 0x31] "Foo.class"
      (by decide) (by decide),
   read_valid_header [0xCA, 0xFE, 0xBA, 0xBE, 0, 3, 0, 45, 7, 7] "Foo.class"
      (by decide) (by decide)⟩

/-- C4: on every byte stream of at least 8 bytes and every source name `n`,
`read` returns an error if and only if the big-endian value of the first four
bytes differs from `0xCAFEBABE`, and then the results are the empty label, 0, 0
and the error "Invalid class file: " followed by `n`. -/
theorem read_fails_iff (b : Reader) (n : String) (h8 : 8 ≤ b.length) :
    ((read b n).1.err ≠ none ↔
        b[0].val * 2 ^ 24 + b[1].val * 2 ^ 16 + b[2].val * 2 ^ 8 + b[3].val ≠ 0xCAFEBABE) ∧
      ((read b n).1.err ≠ none →
        (read b n).1 = ⟨"", 0, 0, some ("Invalid class file: " ++ n)⟩) := by
  obtain ⟨m0, m1, m2, m3, n0, n1, j0, j1, rest, rfl⟩ := exists_header_of_length b h8
  rw [read_cons8]
  change (_ ↔ bigEndianUint32 m0 m1 m2 m3 ≠ 0xcafebabe) ∧ _
  by_cases hm : bigEndianUint32 m0 m1 m2 m3 = 0xcafebabe
  · rw [if_neg (not_not.mpr hm)]
    simp [hm]
  · rw [if_pos hm]
    simp [hm]

/-- A stream that begins `DE AD BE EF` is rejected with the error naming the
source. -/
theorem read_fails_iff_witness :
    (read [0xDE, 0xAD, 0xBE, 0xEF, 0, 0, 0, 0x31] "Foo.class").1 =
      ⟨"", 0, 0, some "Invalid class file: Foo.class"⟩ :=
  (read_fails_iff [0xDE, 0xAD, 0xBE, 0xEF, 0, 0, 0, 0x31] "Foo.class" (by decide)).2
    ((read_fails_iff [0xDE, 0xAD, 0xBE, 0xEF, 0, 0, 0, 0x31] "Foo.class" (by decide)).1.mpr
      (by decide))

/-- C5: on every byte stream of fewer than 8 bytes `read` fails with the error
"Invalid class file: " followed by the source name and returns the empty
label, major 0 and minor 0; it never succeeds. -/
theorem read_truncated (b : Reader) (n : String) (h : b.length < 8) :
    (read b n).1 = ⟨"", 0, 0, some ("Invalid class file: " ++ n)⟩ := by
  rw [read_short b n h]

/-- The empty stream, the bare magic, and a 7-byte stream that starts with the
magic are all rejected. -/
theorem read_truncated_witness :
    (read [] "Foo.class").1 = ⟨"", 0, 0, some "Invalid class file: Foo.class"⟩ ∧
      (read [0xCA, 0xFE, 0xBA, 0xBE] "Foo.class").1 =
        ⟨"", 0, 0, some "Invalid class file: Foo.class"⟩ ∧
      (read [0xCA, 0xFE, 0xBA, 0xBE, 0, 0, 0] "Foo.class").1 =
        ⟨"", 0, 0, some "Invalid class file: Foo.class"⟩ :=
  ⟨read_truncated [] "Foo.class" (by decide),
   read_truncated [0xCA, 0xFE, 0xBA, 0xBE] "Foo.class" (by decide),
   read_truncated [0xCA, 0xFE, 0xBA, 0xBE, 0, 0, 0] "Foo.class" (by decide)⟩

/-! ## The jar scan -/

/-- Entries whose name does not end in ".class" are passed over without any
file operation. -/
theorem scanEntries_skip (jarFile : String) (pre l : List ZipFile) (i : Nat)
    (hpre : ∀ g ∈ pre, HasSuffix g.Name ".class" = false) :
    scanEntries jarFile i (pre ++ l) = scanEntries jarFile (i + pre.length) l := by
  induction pre generalizing i with
  | nil => simp
  | cons g gs ih =>
      have hg : HasSuffix g.Name ".class" = false := hpre g (List.mem_cons_self g gs)
      have hgs : ∀ x ∈ gs, HasSuffix x.Name ".class" = false :=
        fun x hx => hpre x (List.mem_cons_of_mem g hx)
      rw [List.cons_append, scanEntries]
      simp only [hg, Bool.false_eq_true, if_false]
      rw [ih (i + 1) hgs, List.length_cons]
      congr 1
      omega

/-- C6: when the jar opens as `pre ++ f :: post`, no entry of `pre` has a name
ending in ".class", `f` has one and opens as the stream `rc`, `ReadJarFile`
returns exactly what `read` returns on `rc` and the name of `f`, whatever
`pre` and `post` are; in particular, if the magic of `f` is bad the call
fails with the error naming `f`, even if `post` holds a valid class entry. -/
theorem ReadJarFile_first_class (fs : FileSystem) (p : String) (pre post : List ZipFile)
    (f : ZipFile) (rc : Reader)
    (hopen : fs.zipOpenReader p = some (pre ++ f :: post))
    (hpre : ∀ g ∈ pre, HasSuffix g.Name ".class" = false)
    (hf : HasSuffix f.Name ".class" = true)
    (hrc : f.Open = some rc) :
    (ReadJarFile fs p).1 = (read rc f.Name).1 ∧
      ((binaryRead rc JavaClass.zero).1.Magic ≠ 0xcafebabe →
        (ReadJarFile fs p).1 = ⟨"", 0, 0, some ("Invalid class file: " ++ f.Name)⟩) := by
  have key : (ReadJarFile fs p).1 = (read rc f.Name).1 := by
    simp only [ReadJarFile, hopen]
    rw [scanEntries_skip p pre (f :: post) 0 hpre, scanEntries]
    simp only [hf, if_true, hrc]
  refine ⟨key, fun hbad => ?_⟩
  rw [key]
  simp only [read, if_pos hbad]

/-- The jar `[META-INF/MANIFEST.MF, com/Foo.class]` with a valid `Foo.class` of
major 52 gives "1.8"; the jar `[com/Bad.class, com/Foo.class]` fails on
`Bad.class` although `Foo.class` is valid. -/
theorem ReadJarFile_first_class_witness :
    (ReadJarFile exampleFS "app.jar").1 = ⟨"1.8", 52, 0, none⟩ ∧
      (ReadJarFile exampleFS "bad.jar").1 =
        ⟨"", 0, 0, some "Invalid class file: com/Bad.class"⟩ :=
  ⟨(ReadJarFile_first_class exampleFS "app.jar" [manifestEntry] [] fooEntry
      [0xCA, 0xFE, 0xBA, 0xBE, 0, 0, 0, 52] rfl (by decide) (by decide) rfl).1,
   (ReadJarFile_first_class exampleFS "bad.jar" [] [fooEntry] badEntry
      [0xDE, 0xAD, 0xBE, 0xEF, 0, 0, 0, 52] rfl (by decide) (by decide) rfl).2 (by decide)⟩

/-- C7: when the container at `p` opens and none of its entries has a name
ending in ".class" (the empty container included), `ReadJarFile` fails with
the error "Unable to find a class file in " followed by `p`. -/
theorem ReadJarFile_no_class (fs : FileSystem) (p : String) (entries : List ZipFile)
    (hopen : fs.zipOpenReader p = some entries)
    (hnone : ∀ g ∈ entries, HasSuffix g.Name ".class" = false) :
    (ReadJarFile fs p).1 = ⟨"", 0, 0, some ("Unable to find a class file in " ++ p)⟩ := by
  have h := scanEntries_skip p entries [] 0 hnone
  rw [List.append_nil] at h
  simp only [ReadJarFile, hopen, h, scanEntries]

/-- The empty container and a container that holds only a manifest. -/
theorem ReadJarFile_no_class_witness :
    (ReadJarFile exampleFS "empty.jar").1 =
        ⟨"", 0, 0, some "Unable to find a class file in empty.jar"⟩ ∧
      (ReadJarFile exampleFS "docs.jar").1 =
        ⟨"", 0, 0, some "Unable to find a class file in docs.jar"⟩ :=
  ⟨ReadJarFile_no_class exampleFS "empty.jar" [] rfl (by decide),
   ReadJarFile_no_class exampleFS "docs.jar" [manifestEntry] rfl (by decide)⟩

/-! ## The command line -/

/-- The error line of `main` as one string. -/
theorem Sprintln_error (e : String) : Sprintln ["Error:", e] = "Error: " ++ e ++ "\n" := by
  simp only [Sprintln]
  rw [String.append_assoc]
  rfl

/-- A path that ends in ".jar" does not end in ".class": the last characters
differ. -/
theorem jar_not_class (path : String) (h : HasSuffix path ".jar" = true) :
    HasSuffix path ".class" = false := by
  cases hc : HasSuffix path ".class" with
  | false => rfl
  | true =>
      exfalso
      simp only [HasSuffix, Bool.and_eq_true, decide_eq_true_eq] at h hc
      have h1 := congrArg List.getLast? h.2
      have h2 := congrArg List.getLast? hc.2
      rw [List.getLast?_drop] at h1 h2
      have l1 : (".jar" : String).data.length = 4 := by decide
      have l2 : (".class" : String).data.length = 6 := by decide
      have g1 : (".jar" : String).data.getLast? = some 'r' := by decide
      have g2 : (".class" : String).data.getLast? = some 's' := by decide
      rw [l1, g1] at h1
      rw [l2, g2] at h2
      have hl := h.1
      have hl2 := hc.1
      rw [l1] at hl
      rw [l2] at hl2
      rw [if_neg (by omega)] at h1 h2
      rw [h1] at h2
      exact absurd h2 (by decide)

/-- A path that ends in ".class" does not end in ".jar". -/
theorem class_not_jar (path : String) (h : HasSuffix path ".class" = true) :
    HasSuffix path ".jar" = false := by
  cases hj : HasSuffix path ".jar" with
  | false => rfl
  | true =>
      rw [jar_not_class path hj] at h
      cases h

/-- With exactly one positional argument `validateArgs` returns and `main` is
its three-way branch on `os.Args[1]`. -/
theorem main_one_arg (fs : FileSystem) (prog path : String) :
    main fs prog [path] =
      if HasSuffix path ".class" then
        match (ReadClassFile fs path).1.err with
        | some e => ⟨[Sprintln ["Error:", e]], [], 1, (ReadClassFile fs path).2⟩
        | none =>
            ⟨["Class version : " ++ fmtD (ReadClassFile fs path).1.major ++ "." ++
                fmtD (ReadClassFile fs path).1.minor ++ "\n",
              "Java version  : " ++ (ReadClassFile fs path).1.ver ++ "\n"], [], 0,
              (ReadClassFile fs path).2⟩
      else if HasSuffix path ".jar" then
        match (ReadJarFile fs path).1.err with
        | some e => ⟨[Sprintln ["Error:", e]], [], 1, (ReadJarFile fs path).2⟩
        | none =>
            ⟨["Class version : " ++ fmtD (ReadJarFile fs path).1.major ++ "." ++
                fmtD (ReadJarFile fs path).1.minor ++ "\n",
              "Java version  : " ++ (ReadJarFile fs path).1.ver ++ "\n"], [], 0,
              (ReadJarFile fs path).2⟩
      else
        ⟨[Sprintln ["Error: Only .class or .jar file is supported"]], [], 1, []⟩ := rfl

/-- With any other number of positional arguments `main` stops in
`validateArgs`. -/
theorem main_usage (fs : FileSystem) (prog : String) (args : List String)
    (h : args.length ≠ 1) : main fs prog args = ⟨[printUsage prog], [], 1, []⟩ := by
  have h2 : (prog :: args).length ≠ 2 := by
    rw [List.length_cons]; omega
  simp only [main, validateArgs, if_pos h2]

/-- Two strings whose first characters differ are different. -/
theorem ne_of_data_head {a b : String} (h : a.data.head? ≠ b.data.head?) : a ≠ b :=
  fun e => h (by rw [e])

/-- An error line is neither of the two version lines. -/
theorem error_line_not_version (e t : String) :
    Sprintln ["Error:", e] ≠ "Class version : " ++ t ∧
      Sprintln ["Error:", e] ≠ "Java version  : " ++ t := by
  constructor
  · apply ne_of_data_head
    show some 'E' ≠ some 'C'
    decide
  · apply ne_of_data_head
    show some 'E' ≠ some 'J'
    decide

/-- The unsupported-extension line is neither of the two version lines. -/
theorem unsupported_line_not_version (t : String) :
    Sprintln ["Error: Only .class or .jar file is supported"] ≠ "Class version : " ++ t ∧
      Sprintln ["Error: Only .class or .jar file is supported"] ≠ "Java version  : " ++ t :=
  error_line_not_version "Only .class or .jar file is supported" t

/-- The usage line is neither of the two version lines. -/
theorem usage_line_not_version (prog t : String) :
    printUsage prog ≠ "Class version : " ++ t ∧ printUsage prog ≠ "Java version  : " ++ t := by
  constructor
  · apply ne_of_data_head
    show some 'U' ≠ some 'C'
    decide
  · apply ne_of_data_head
    show some 'U' ≠ some 'J'
    decide

/-- C8: with a single path argument `main` dispatches on the exact suffix: for
a path ending in ".class" its file operations are those of `ReadClassFile` on
that path, for a path ending in ".jar" those of `ReadJarFile`, and for every
other path it performs no file operation, writes the single line
"Error: Only .class or .jar file is supported" and exits with status 1. -/
theorem main_dispatch (fs : FileSystem) (prog path : String) :
    (HasSuffix path ".class" = true →
        (main fs prog [path]).trace = (ReadClassFile fs path).2) ∧
      (HasSuffix path ".jar" = true →
        (main fs prog [path]).trace = (ReadJarFile fs path).2) ∧
      (HasSuffix path ".class" = false → HasSuffix path ".jar" = false →
        main fs prog [path] =
          ⟨["Error: Only .class or .jar file is supported\n"], [], 1, []⟩) := by
  refine ⟨fun hc => ?_, fun hj => ?_, fun hc hj => ?_⟩
  · rw [main_one_arg, if_pos hc]
    cases (ReadClassFile fs path).1.err <;> rfl
  · have hc := jar_not_class path hj
    rw [main_one_arg, hc, if_neg (by decide), if_pos hj]
    cases (ReadJarFile fs path).1.err <;> rfl
  · rw [main_one_arg, hc, hj]
    rfl

/-- The paths "foo.txt", "Foo.CLASS" and "lib.JAR" are unsupported; the paths
"Foo.class" and "app.jar" go to the class reader and to the jar reader. -/
theorem main_dispatch_witness :
    main exampleFS "jvc" ["foo.txt"] =
        ⟨["Error: Only .class or .jar file is supported\n"], [], 1, []⟩ ∧
      main exampleFS "jvc" ["Foo.CLASS"] =
        ⟨["Error: Only .class or .jar file is supported\n"], [], 1, []⟩ ∧
      main exampleFS "jvc" ["lib.JAR"] =
        ⟨["Error: Only .class or .jar file is supported\n"], [], 1, []⟩ ∧
      (main exampleFS "jvc" ["Foo.class"]).trace = (ReadClassFile exampleFS "Foo.class").2 ∧
      (main exampleFS "jvc" ["app.jar"]).trace = (ReadJarFile exampleFS "app.jar").2 :=
  ⟨(main_dispatch exampleFS "jvc" "foo.txt").2.2 (by decide) (by decide),
   (main_dispatch exampleFS "jvc" "Foo.CLASS").2.2 (by decide) (by decide),
   (main_dispatch exampleFS "jvc" "lib.JAR").2.2 (by decide) (by decide),
   (main_dispatch exampleFS "jvc" "Foo.class").1 (by decide),
   (main_dispatch exampleFS "jvc" "app.jar").2.1 (by decide)⟩

/-- C9, as stated, fails: the invocation `jvc foo.txt` fails with status 1,
yet nothing is written to standard error; the error line is on standard
output. -/
theorem main_error_not_on_stderr :
    (main exampleFS "jvc" ["foo.txt"]).exit = 1 ∧
      (main exampleFS "jvc" ["foo.txt"]).stderr = [] ∧
      (main exampleFS "jvc" ["foo.txt"]).stdout =
        ["Error: Only .class or .jar file is supported\n"] := by
  decide

/-- C9, amended: for every one-argument invocation that fails, `main` writes
the single line "Error: " followed by the message to standard output, and
nothing to standard error; the message is the text of the error returned by
`ReadClassFile` or by `ReadJarFile`, or "Only .class or .jar file is
supported" for any other extension. -/
theorem main_error_on_stdout (fs : FileSystem) (prog path : String) :
    (∀ e, HasSuffix path ".class" = true → (ReadClassFile fs path).1.err = some e →
        (main fs prog [path]).stdout = ["Error: " ++ e ++ "\n"] ∧
          (main fs prog [path]).stderr = []) ∧
      (∀ e, HasSuffix path ".jar" = true → (ReadJarFile fs path).1.err = some e →
        (main fs prog [path]).stdout = ["Error: " ++ e ++ "\n"] ∧
          (main fs prog [path]).stderr = []) ∧
      (HasSuffix path ".class" = false → HasSuffix path ".jar" = false →
        (main fs prog [path]).stdout = ["Error: Only .class or .jar file is supported\n"] ∧
          (main fs prog [path]).stderr = []) := by
  refine ⟨fun e hc he => ?_, fun e hj he => ?_, fun hc hj => ?_⟩
  · rw [main_one_arg, if_pos hc, he]
    refine ⟨?_, rfl⟩
    show [Sprintln ["Error:", e]] = _
    rw [Sprintln_error]
  · have hc := jar_not_class path hj
    rw [main_one_arg, hc, if_neg (by decide), if_pos hj, he]
    refine ⟨?_, rfl⟩
    show [Sprintln ["Error:", e]] = _
    rw [Sprintln_error]
  · rw [main_one_arg, hc, hj]
    exact ⟨rfl, rfl⟩

/-- A class file that cannot be opened, a truncated class file, a jar without
a class entry, a jar whose first class entry has a bad magic, and an
unsupported extension. -/
theorem main_error_on_stdout_witness :
    (main exampleFS "jvc" ["missing.class"]).stdout =
        ["Error: Unable to read missing.class\n"] ∧
      (main exampleFS "jvc" ["short.class"]).stdout =
        ["Error: Invalid class file: short.class\n"] ∧
      (main exampleFS "jvc" ["empty.jar"]).stdout =
        ["Error: Unable to find a class file in empty.jar\n"] ∧
      (main exampleFS "jvc" ["bad.jar"]).stdout =
        ["Error: Invalid class file: com/Bad.class\n"] ∧
      (main exampleFS "jvc" ["foo.txt"]).stdout =
        ["Error: Only .class or .jar file is supported\n"] :=
  ⟨((main_error_on_stdout exampleFS "jvc" "missing.class").1 "Unable to read missing.class"
      (by decide) (by decide)).1,
   ((main_error_on_stdout exampleFS "jvc" "short.class").1 "Invalid class file: short.class"
      (by decide) (by decide)).1,
   ((main_error_on_stdout exampleFS "jvc" "empty.jar").2.1
      "Unable to find a class file in empty.jar" (by decide) (by decide)).1,
   ((main_error_on_stdout exampleFS "jvc" "bad.jar").2.1
      "Invalid class file: com/Bad.class" (by decide) (by decide)).1,
   ((main_error_on_stdout exampleFS "jvc" "foo.txt").2.2 (by decide) (by decide)).1⟩

/-- C10: `main` exits with status 1 when the number of positional arguments is
not one; with one argument it exits with status 0 exactly when the reader
selected by the suffix returns no error; and whenever the status is not 0 it
is 1 and no write to standard output is a "Class version" or a "Java version"
line. -/
theorem main_exit_status (fs : FileSystem) (prog : String) (args : List String) :
    (args.length ≠ 1 → (main fs prog args).exit = 1) ∧
      (∀ path, args = [path] →
        ((main fs prog args).exit = 0 ↔
          (HasSuffix path ".class" = true ∧ (ReadClassFile fs path).1.err = none) ∨
            (HasSuffix path ".jar" = true ∧ (ReadJarFile fs path).1.err = none))) ∧
      ((main fs prog args).exit ≠ 0 →
        (main fs prog args).exit = 1 ∧
          ∀ w ∈ (main fs prog args).stdout, ∀ t : String,
            w ≠ "Class version : " ++ t ∧ w ≠ "Java version  : " ++ t) := by
  refine ⟨fun h => ?_, ?_, ?_⟩
  · rw [main_usage fs prog args h]
  · rintro path rfl
    rw [main_one_arg]
    cases hc : HasSuffix path ".class"
    · cases hj : HasSuffix path ".jar"
      · simp
      · cases he : (ReadJarFile fs path).1.err <;> simp
    · have hj := class_not_jar path hc
      cases he : (ReadClassFile fs path).1.err <;> simp [hj]
  · by_cases h : args.length = 1
    · obtain ⟨path, rfl⟩ := List.length_eq_one.mp h
      rw [main_one_arg]
      cases hc : HasSuffix path ".class"
      · cases hj : HasSuffix path ".jar"
        · intro _
          refine ⟨rfl, fun w hw t => ?_⟩
          simp only [Bool.false_eq_true, if_false, List.mem_singleton] at hw
          subst hw
          exact unsupported_line_not_version t
        · cases he : (ReadJarFile fs path).1.err
          · simp
          · intro _
            refine ⟨rfl, fun w hw t => ?_⟩
            simp only [Bool.false_eq_true, if_false, if_true, List.mem_singleton] at hw
            subst hw
            exact error_line_not_version _ t
      · cases he : (ReadClassFile fs path).1.err
        · simp
        · intro _
          refine ⟨rfl, fun w hw t => ?_⟩
          simp only [if_true, List.mem_singleton] at hw
          subst hw
          exact error_line_not_version _ t
    · rw [main_usage fs prog args h]
      intro _
      refine ⟨rfl, fun w hw t => ?_⟩
      simp only [List.mem_singleton] at hw
      subst hw
      exact usage_line_not_version prog t

/-- No argument and two arguments exit with status 1; a valid class file and a
valid jar exit with status 0; a truncated class file exits with status 1 and
writes no version line. -/
theorem main_exit_status_witness :
    (main exampleFS "jvc" []).exit = 1 ∧
      (main exampleFS "jvc" ["Foo.class", "app.jar"]).exit = 1 ∧
      (main exampleFS "jvc" ["Foo.class"]).exit = 0 ∧
      (main exampleFS "jvc" ["app.jar"]).exit = 0 ∧
      ((main exampleFS "jvc" ["short.class"]).exit = 1 ∧
        ∀ w ∈ (main exampleFS "jvc" ["short.class"]).stdout, ∀ t : String,
          w ≠ "Class version : " ++ t ∧ w ≠ "Java version  : " ++ t) :=
  ⟨(main_exit_status exampleFS "jvc" []).1 (by decide),
   (main_exit_status exampleFS "jvc" ["Foo.class", "app.jar"]).1 (by decide),
   ((main_exit_status exampleFS "jvc" ["Foo.class"]).2.1 "Foo.class" rfl).mpr
      (Or.inl (by decide)),
   ((main_exit_status exampleFS "jvc" ["app.jar"]).2.1 "app.jar" rfl).mpr
      (Or.inr (by decide)),
   (main_exit_status exampleFS "jvc" ["short.class"]).2.2 (by decide)⟩

/-- The usage line as one string. -/
theorem printUsage_eq (prog : String) :
    printUsage prog = "Usage: " ++ prog ++ " <class_file|jar_file>\n" := by
  simp only [printUsage, Sprintln, String.append_assoc]
  rfl

/-- C11: whenever the selected reader returns `(label, major, minor)` and no
error, `main` writes to standard output exactly two lines, in this order:
"Class version : " with `major` and `minor` in decimal separated by a dot, then
"Java version  : " with the label unchanged. -/
theorem main_success_output (fs : FileSystem) (prog path label : String) (major minor : Nat) :
    (HasSuffix path ".class" = true → (ReadClassFile fs path).1 = ⟨label, major, minor, none⟩ →
        (main fs prog [path]).stdout =
          ["Class version : " ++ (Nat.toDigits 10 major).asString ++ "." ++
              (Nat.toDigits 10 minor).asString ++ "\n",
            "Java version  : " ++ label ++ "\n"]) ∧
      (HasSuffix path ".jar" = true → (ReadJarFile fs path).1 = ⟨label, major, minor, none⟩ →
        (main fs prog [path]).stdout =
          ["Class version : " ++ (Nat.toDigits 10 major).asString ++ "." ++
              (Nat.toDigits 10 minor).asString ++ "\n",
            "Java version  : " ++ label ++ "\n"]) := by
  refine ⟨fun hc hr => ?_, fun hj hr => ?_⟩
  · rw [main_one_arg, if_pos hc, hr]
    rfl
  · have hc := jar_not_class path hj
    rw [main_one_arg, hc, if_neg (by decide), if_pos hj, hr]
    rfl

/-- The class file with header `CA FE BA BE 00 00 00 31` prints
"Class version : 49.0" then "Java version  : 1.5"; the jar with `Foo.class` of
major 52 prints "Class version : 52.0" then "Java version  : 1.8". -/
theorem main_success_output_witness :
    (main exampleFS "jvc" ["Foo.class"]).stdout =
        ["Class version : 49.0\n", "Java version  : 1.5\n"] ∧
      (main exampleFS "jvc" ["app.jar"]).stdout =
        ["Class version : 52.0\n", "Java version  : 1.8\n"] :=
  ⟨(main_success_output exampleFS "jvc" "Foo.class" "1.5" 49 0).1 (by decide) (by decide),
   (main_success_output exampleFS "jvc" "app.jar" "1.8" 52 0).2 (by decide) (by decide)⟩

/-- C12: whenever the number of positional arguments is not exactly one, `main`
writes the single line "Usage: <program> <class_file|jar_file>" to standard
output, performs no file operation and exits with status 1. -/
theorem main_wrong_arg_count (fs : FileSystem) (prog : String) (args : List String)
    (h : args.length ≠ 1) :
    main fs prog args = ⟨["Usage: " ++ prog ++ " <class_file|jar_file>\n"], [], 1, []⟩ := by
  rw [main_usage fs prog args h, printUsage_eq]

/-- No argument, two arguments and three arguments. -/
theorem main_wrong_arg_count_witness :
    main exampleFS "jvc" [] = ⟨["Usage: jvc <class_file|jar_file>\n"], [], 1, []⟩ ∧
      main exampleFS "jvc" ["Foo.class", "app.jar"] =
        ⟨["Usage: jvc <class_file|jar_file>\n"], [], 1, []⟩ ∧
      main exampleFS "jvc" ["a", "b", "c"] =
        ⟨["Usage: jvc <class_file|jar_file>\n"], [], 1, []⟩ :=
  ⟨main_wrong_arg_count exampleFS "jvc" [] (by decide),
   main_wrong_arg_count exampleFS "jvc" ["Foo.class", "app.jar"] (by decide),
   main_wrong_arg_count exampleFS "jvc" ["a", "b", "c"] (by decide)⟩

/-! ## Consumption, skipped entries, open failures, handles and consistency -/

/-- C13: on a stream of at least 8 bytes `read` consumes exactly the first 8,
and on any other stream with the same first 8 bytes and the same source name
it returns the same label, major, minor and error. -/
theorem read_first_eight (b b2 : Reader) (n : String) (h8 : 8 ≤ b.length)
    (heq : b.take 8 = b2.take 8) :
    (read b n).2 = b.drop 8 ∧ (read b n).1 = (read b2 n).1 := by
  have h82 : 8 ≤ b2.length := by
    have hl := congrArg List.length heq
    rw [List.length_take, List.length_take] at hl
    omega
  obtain ⟨m0, m1, m2, m3, n0, n1, j0, j1, rest, rfl⟩ := exists_header_of_length b h8
  obtain ⟨k0, k1, k2, k3, p0, p1, q0, q1, rest2, rfl⟩ := exists_header_of_length b2 h82
  simp only [List.take_succ_cons, List.take_zero, List.cons.injEq, and_true] at heq
  obtain ⟨rfl, rfl, rfl, rfl, rfl, rfl, rfl, rfl⟩ := heq
  rw [read_cons8, read_cons8]
  constructor
  · split <;> rfl
  · split <;> rfl

/-- Two streams with the header of major 49 and different tails, and two with
a bad magic. -/
theorem read_first_eight_witness :
    ((read [0xCA, 0xFE, 0xBA, 0xBE, 0, 0, 0, 0x31, 1, 2, 3] "Foo.class").2 = [1, 2, 3] ∧
        (read [0xCA, 0xFE, 0xBA, 0xBE, 0, 0, 0, 0x31, 1, 2, 3] "Foo.class").1 =
          (read [0xCA, 0xFE, 0xBA, 0xBE, 0, 0, 0, 0x31, 9] "Foo.class").1) ∧
      ((read [0xDE, 0xAD, 0xBE, 0xEF, 0, 0, 0, 0x31, 1] "Foo.class").2 = [1] ∧
        (read [0xDE, 0xAD, 0xBE, 0xEF, 0, 0, 0, 0x31, 1] "Foo.class").1 =
          (read [0xDE, 0xAD, 0xBE, 0xEF, 0, 0, 0, 0x31] "Foo.class").1) :=
  ⟨read_first_eight [0xCA, 0xFE, 0xBA, 0xBE, 0, 0, 0, 0x31, 1, 2, 3]
      [0xCA, 0xFE, 0xBA, 0xBE, 0, 0, 0, 0x31, 9] "Foo.class" (by decide) (by decide),
   read_first_eight [0xDE, 0xAD, 0xBE, 0xEF, 0, 0, 0, 0x31, 1]
      [0xDE, 0xAD, 0xBE, 0xEF, 0, 0, 0, 0x31] "Foo.class" (by decide) (by decide)⟩

/-- The result of the scan does not depend on the start position and is
unchanged when the class-suffixed entries that fail to open are removed. -/
theorem scanEntries_filter (jarFile : String) (l : List ZipFile) (i j : Nat) :
    (scanEntries jarFile i l).1 =
      (scanEntries jarFile j
        (l.filter (fun f => !(HasSuffix f.Name ".class" && f.Open.isNone)))).1 := by
  induction l generalizing i j with
  | nil => rfl
  | cons f fs ih =>
      cases hc : HasSuffix f.Name ".class"
      · simp only [scanEntries, List.filter, hc, Bool.false_and, Bool.not_false,
          Bool.false_eq_true, if_false]
        exact ih (i + 1) (j + 1)
      · cases ho : f.Open with
        | none =>
            simp only [scanEntries, List.filter, hc, ho, Option.isNone_none, Bool.and_self,
              Bool.not_true, if_true]
            exact ih (i + 1) j
        | some rc =>
            simp only [scanEntries, List.filter, hc, ho, Option.isNone_some, Bool.and_false,
              Bool.not_false, if_true]

/-- The result of the scan is `read` of the first class-suffixed entry that
opens. -/
theorem scanEntries_find_some (jarFile : String) (l : List ZipFile) (i : Nat) (f : ZipFile)
    (rc : Reader)
    (hfind : l.find? (fun g => HasSuffix g.Name ".class" && g.Open.isSome) = some f)
    (hrc : f.Open = some rc) :
    (scanEntries jarFile i l).1 = (read rc f.Name).1 := by
  induction l generalizing i with
  | nil => simp at hfind
  | cons g gs ih =>
      cases hc : HasSuffix g.Name ".class"
      · simp only [List.find?, hc, Bool.false_and] at hfind
        simp only [scanEntries, hc, Bool.false_eq_true, if_false]
        exact ih (i + 1) hfind
      · cases ho : g.Open with
        | none =>
            simp only [List.find?, hc, ho, Option.isSome_none, Bool.and_false] at hfind
            simp only [scanEntries, hc, ho, if_true]
            exact ih (i + 1) hfind
        | some r =>
            simp only [List.find?, hc, ho, Option.isSome_some, Bool.and_self,
              Option.some.injEq] at hfind
            subst hfind
            rw [ho, Option.some.injEq] at hrc
            subst hrc
            simp only [scanEntries, hc, ho, if_true]

/-- The result of the scan is the not-found error when no class-suffixed entry
opens. -/
theorem scanEntries_find_none (jarFile : String) (l : List ZipFile) (i : Nat)
    (hfind : l.find? (fun g => HasSuffix g.Name ".class" && g.Open.isSome) = none) :
    (scanEntries jarFile i l).1 =
      ⟨"", 0, 0, some ("Unable to find a class file in " ++ jarFile)⟩ := by
  induction l generalizing i with
  | nil => rfl
  | cons g gs ih =>
      cases hc : HasSuffix g.Name ".class"
      · simp only [List.find?, hc, Bool.false_and] at hfind
        simp only [scanEntries, hc, Bool.false_eq_true, if_false]
        exact ih (i + 1) hfind
      · cases ho : g.Open with
        | none =>
            simp only [List.find?, hc, ho, Option.isSome_none, Bool.and_false] at hfind
            simp only [scanEntries, hc, ho, if_true]
            exact ih (i + 1) hfind
        | some r =>
            simp [List.find?, hc, ho] at hfind

/-- C14: when the jar at `p` opens with the entries `entries`, the result of
`ReadJarFile` equals its result on the same entries with every class-suffixed
entry that fails to open removed; it is `read` of the first class-suffixed
entry that opens, and the not-found error when no class-suffixed entry
opens. -/
theorem ReadJarFile_skips_unopenable (fs : FileSystem) (p : String) (entries : List ZipFile)
    (hopen : fs.zipOpenReader p = some entries) :
    (ReadJarFile fs p).1 =
        (ReadJarFile ⟨fs.osOpen, fun _ => some (entries.filter
          (fun f => !(HasSuffix f.Name ".class" && f.Open.isNone)))⟩ p).1 ∧
      (∀ f rc, entries.find? (fun g => HasSuffix g.Name ".class" && g.Open.isSome) = some f →
        f.Open = some rc → (ReadJarFile fs p).1 = (read rc f.Name).1) ∧
      (entries.find? (fun g => HasSuffix g.Name ".class" && g.Open.isSome) = none →
        (ReadJarFile fs p).1 =
          ⟨"", 0, 0, some ("Unable to find a class file in " ++ p)⟩) := by
  refine ⟨?_, fun f rc hfind hrc => ?_, fun hfind => ?_⟩
  · simp only [ReadJarFile, hopen]
    exact scanEntries_filter p entries 0 0
  · simp only [ReadJarFile, hopen]
    exact scanEntries_find_some p entries 0 f rc hfind hrc
  · simp only [ReadJarFile, hopen]
    exact scanEntries_find_none p entries 0 hfind

/-- The jar `[com/Locked.class, META-INF/MANIFEST.MF, com/Foo.class]`, whose
first class entry fails to open, gives the result of `Foo.class`; the jar
`[META-INF/MANIFEST.MF, com/Locked.class]` gives the not-found error. -/
theorem ReadJarFile_skips_unopenable_witness :
    (ReadJarFile exampleFS "locked.jar").1 = ⟨"1.8", 52, 0, none⟩ ∧
      (ReadJarFile exampleFS "sealed.jar").1 =
        ⟨"", 0, 0, some "Unable to find a class file in sealed.jar"⟩ :=
  ⟨(ReadJarFile_skips_unopenable exampleFS "locked.jar"
      [lockedEntry, manifestEntry, fooEntry] rfl).2.1 fooEntry
      [0xCA, 0xFE, 0xBA, 0xBE, 0, 0, 0, 52] rfl rfl,
   (ReadJarFile_skips_unopenable exampleFS "sealed.jar"
      [manifestEntry, lockedEntry] rfl).2.2 rfl⟩

/-- C15: if `os.Open` fails at `p` then `ReadClassFile` fails, and if
`zip.OpenReader` fails at `p` then `ReadJarFile` fails, each with the empty
label, 0, 0 and the error "Unable to read " followed by `p`; the failed open
is the only file operation, so no header is read. -/
theorem open_failure (fs : FileSystem) (p : String) :
    (fs.osOpen p = none →
        ReadClassFile fs p =
            (⟨"", 0, 0, some ("Unable to read " ++ p)⟩, [Event.openFailed (Handle.file p)]) ∧
          ∀ h k, Event.headerRead h k ∉ (ReadClassFile fs p).2) ∧
      (fs.zipOpenReader p = none →
        ReadJarFile fs p =
            (⟨"", 0, 0, some ("Unable to read " ++ p)⟩, [Event.openFailed (Handle.zip p)]) ∧
          ∀ h k, Event.headerRead h k ∉ (ReadJarFile fs p).2) := by
  refine ⟨fun hf => ?_, fun hz => ?_⟩
  · have e : ReadClassFile fs p =
        (⟨"", 0, 0, some ("Unable to read " ++ p)⟩, [Event.openFailed (Handle.file p)]) := by
      simp only [ReadClassFile, hf]
    refine ⟨e, fun h k hmem => ?_⟩
    rw [e] at hmem
    simp at hmem
  · have e : ReadJarFile fs p =
        (⟨"", 0, 0, some ("Unable to read " ++ p)⟩, [Event.openFailed (Handle.zip p)]) := by
      simp only [ReadJarFile, hz]
    refine ⟨e, fun h k hmem => ?_⟩
    rw [e] at hmem
    simp at hmem

/-- A class file and a jar that do not exist. -/
theorem open_failure_witness :
    ReadClassFile exampleFS "missing.class" =
        (⟨"", 0, 0, some "Unable to read missing.class"⟩,
          [Event.openFailed (Handle.file "missing.class")]) ∧
      ReadJarFile exampleFS "missing.jar" =
        (⟨"", 0, 0, some "Unable to read missing.jar"⟩,
          [Event.openFailed (Handle.zip "missing.jar")]) :=
  ⟨((open_failure exampleFS "missing.class").1 rfl).1,
   ((open_failure exampleFS "missing.jar").2 rfl).1⟩

/-- The handles open after two traces in a row. -/
theorem stillOpen_append (hs : List Handle) (a b : List Event) :
    stillOpen hs (a ++ b) = stillOpen (stillOpen hs a) b := by
  induction a generalizing hs with
  | nil => rfl
  | cons e es ih =>
      cases e <;> exact ih _

/-- The entry loop leaves open exactly the handles that were open before it. -/
theorem stillOpen_scanEntries (jarFile : String) (l : List ZipFile) (i : Nat)
    (hs : List Handle) : stillOpen hs (scanEntries jarFile i l).2 = hs := by
  induction l generalizing i with
  | nil => rfl
  | cons f fs ih =>
      cases hc : HasSuffix f.Name ".class"
      · simp only [scanEntries, hc, Bool.false_eq_true, if_false]
        exact ih (i + 1)
      · cases ho : f.Open with
        | none =>
            simp only [scanEntries, hc, ho, if_true, stillOpen]
            exact ih (i + 1)
        | some rc =>
            simp only [scanEntries, hc, ho, if_true, stillOpen, List.erase_cons_head]

/-- C16: no handle is left open when `ReadJarFile` or `ReadClassFile` returns:
in the trace of either function every handle that was opened (the zip
container, the entry stream that is read, the plain file) has been closed,
whatever the outcome. -/
theorem handles_closed (fs : FileSystem) (p : String) :
    stillOpen [] (ReadJarFile fs p).2 = [] ∧ stillOpen [] (ReadClassFile fs p).2 = [] := by
  constructor
  · cases hz : fs.zipOpenReader p with
    | none => simp only [ReadJarFile, hz, stillOpen]
    | some files =>
        simp only [ReadJarFile, hz, List.cons_append, stillOpen, stillOpen_append,
          stillOpen_scanEntries, List.erase_cons_head]
  · cases hf : fs.osOpen p with
    | none => simp only [ReadClassFile, hf, stillOpen]
    | some r => simp only [ReadClassFile, hf, stillOpen, List.erase_cons_head]

/-- The traces of a jar whose first class entry fails to open and of a
truncated class file: each handle that was opened is closed, the entry before
the container. -/
theorem trace_examples :
    (ReadJarFile exampleFS "locked.jar").2 =
        [Event.opened (Handle.zip "locked.jar"),
         Event.openFailed (Handle.entry 0 "com/Locked.class"),
         Event.opened (Handle.entry 2 "com/Foo.class"),
         Event.headerRead (Handle.entry 2 "com/Foo.class") 8,
         Event.closed (Handle.entry 2 "com/Foo.class"),
         Event.closed (Handle.zip "locked.jar")] ∧
      (ReadClassFile exampleFS "short.class").2 =
        [Event.opened (Handle.file "short.class"),
         Event.headerRead (Handle.file "short.class") 6,
         Event.closed (Handle.file "short.class")] := by
  decide

/-- The label of `determineJavaVersion` is never empty. -/
theorem determineJavaVersion_ne_empty (major minor : Nat) :
    determineJavaVersion major minor ≠ "" := by
  unfold determineJavaVersion
  split_ifs <;> decide

/-- The results of `read` are consistent. -/
theorem read_consistent (b : Reader) (n : String) : (read b n).1.Consistent := by
  by_cases hm : (binaryRead b JavaClass.zero).1.Magic ≠ 0xcafebabe
  · simp only [read, if_pos hm]
    exact ⟨fun _ => ⟨rfl, rfl, rfl⟩, fun h => by simp at h⟩
  · simp only [read, if_neg hm]
    exact ⟨fun h => absurd rfl h, fun _ => ⟨determineJavaVersion_ne_empty _ _, rfl⟩⟩

/-- The error results built by hand in the three readers are consistent. -/
theorem error_consistent (msg : String) : (Result.mk "" 0 0 (some msg)).Consistent :=
  ⟨fun _ => ⟨rfl, rfl, rfl⟩, fun h => by simp at h⟩

/-- The results of the entry loop are consistent. -/
theorem scanEntries_consistent (jarFile : String) (l : List ZipFile) (i : Nat) :
    (scanEntries jarFile i l).1.Consistent := by
  induction l generalizing i with
  | nil => exact error_consistent _
  | cons f fs ih =>
      cases hc : HasSuffix f.Name ".class"
      · simp only [scanEntries, hc, Bool.false_eq_true, if_false]
        exact ih (i + 1)
      · cases ho : f.Open with
        | none =>
            simp only [scanEntries, hc, ho, if_true]
            exact ih (i + 1)
        | some rc =>
            simp only [scanEntries, hc, ho, if_true]
            exact read_consistent rc f.Name

/-- C17: the results of `read`, `ReadClassFile` and `ReadJarFile` are always
consistent: with an error the label is empty and major and minor are 0;
without an error the label is not empty and equals `determineJavaVersion` of
the returned major and minor. -/
theorem readers_consistent (fs : FileSystem) (b : Reader) (n p : String) :
    (read b n).1.Consistent ∧ (ReadClassFile fs p).1.Consistent ∧
      (ReadJarFile fs p).1.Consistent := by
  refine ⟨read_consistent b n, ?_, ?_⟩
  · cases hf : fs.osOpen p with
    | none =>
        simp only [ReadClassFile, hf]
        exact error_consistent _
    | some r =>
        simp only [ReadClassFile, hf]
        exact read_consistent r p
  · cases hz : fs.zipOpenReader p with
    | none =>
        simp only [ReadJarFile, hz]
        exact error_consistent _
    | some files =>
        simp only [ReadJarFile, hz]
        exact scanEntries_consistent p files 0

end JVC
